import Mathlib

/-!
Verification of the Integration Sync & Retrieval-Augmented Chat Pipeline.

The repository's visible source is the frontend UI layer
(`src/frontend/src/lib/api-client.ts`, `src/frontend/app/page.tsx`, and the
two `settings/page.tsx` variants).  The backend pipeline (Account Store,
Provider Gateway, Episode Builder, Sync Orchestrator, Ingestion Adapter,
Retrieval & Answer Engine) is part of this repository but is not present
under `src/`; its components are modelled from the specification, each such
definition marked `Modelled from the spec:` in its doc comment.  Frontend
definitions are translated directly from the TypeScript sources.
-/

/-- Provider kinds as realised by the repository (`gmail` is the email
provider, `hubspot` the CRM provider; see `api-client.ts`). -/
inductive Provider where
  | gmail
  | hubspot
deriving DecidableEq, Repr

/-- Modelled from the spec: §3 Episode — source provider, account, source
record id (unique per provider+account), occurred-at timestamp, textual
content.  Structured metadata is folded into `content` for this model. -/
structure Episode where
  provider : Provider
  account : String
  sourceId : String
  occurredAt : Nat
  content : String
deriving DecidableEq, Repr

/-- Modelled from the spec: the (provider, account, source record id) key
that §3 declares globally unique. -/
def episodeKey (e : Episode) : Provider × String × String :=
  (e.provider, e.account, e.sourceId)

/-- Modelled from the spec: §4.5 `ingest` outcome — `committed` or
`duplicateSkipped`. -/
inductive IngestResult where
  | committed
  | duplicateSkipped
deriving DecidableEq, Repr

/-- Modelled from the spec: the knowledge-graph store as seen by the
Ingestion Adapter — the set of committed Episodes (each committed Episode
induces one fact set). -/
structure GraphStore where
  episodes : List Episode
deriving DecidableEq, Repr

/-- Modelled from the spec: whether a fact set for this key already exists. -/
def GraphStore.hasKey (g : GraphStore) (k : Provider × String × String) : Bool :=
  g.episodes.any (fun e => episodeKey e = k)

/-- Modelled from the spec: number of committed Episodes carrying a key. -/
def GraphStore.keyCount (g : GraphStore) (k : Provider × String × String) : Nat :=
  (g.episodes.filter (fun e => episodeKey e = k)).length

/-- Modelled from the spec: §4.5 Knowledge Graph Ingestion Adapter,
`ingest(episode) -> committed | duplicateSkipped` — key-based
deduplication: a second submission of the same (provider, account, source
id) yields `duplicateSkipped` without creating a second fact set. -/
def ingest (g : GraphStore) (e : Episode) : GraphStore × IngestResult :=
  if g.hasKey (episodeKey e) then
    (g, IngestResult.duplicateSkipped)
  else
    ({ episodes := e :: g.episodes }, IngestResult.committed)

/-- Modelled from the spec: ingesting the same Episode `n` times in
sequence, collecting the result of each call. -/
def ingestN (g : GraphStore) (e : Episode) : Nat → GraphStore × List IngestResult
  | 0 => (g, [])
  | Nat.succ n =>
      let step := ingest g e
      let rest := ingestN step.1 e n
      (rest.1, step.2 :: rest.2)

theorem ingest_hasKey_self (g : GraphStore) (e : Episode) :
    (ingest g e).1.hasKey (episodeKey e) = true := by
  unfold ingest
  by_cases h : g.hasKey (episodeKey e)
  · rw [if_pos h]
    exact h
  · rw [if_neg h]
    simp [GraphStore.hasKey]

theorem ingest_of_hasKey (g : GraphStore) (e : Episode)
    (h : g.hasKey (episodeKey e) = true) :
    ingest g e = (g, IngestResult.duplicateSkipped) := by
  simp [ingest, h]

theorem ingestN_of_hasKey (g : GraphStore) (e : Episode) (n : Nat)
    (h : g.hasKey (episodeKey e) = true) :
    ingestN g e n = (g, List.replicate n IngestResult.duplicateSkipped) := by
  induction n with
  | zero => simp [ingestN]
  | succ n ih => simp [ingestN, ingest_of_hasKey g e h, ih, List.replicate]

theorem GraphStore.keyCount_eq_zero (g : GraphStore)
    (k : Provider × String × String) (h : g.hasKey k = false) :
    g.keyCount k = 0 := by
  unfold GraphStore.keyCount
  unfold GraphStore.hasKey at h
  rw [List.length_eq_zero, List.filter_eq_nil_iff]
  exact List.any_eq_false.mp h

theorem ingest_fresh (g : GraphStore) (e : Episode)
    (h : g.hasKey (episodeKey e) = false) :
    ingest g e = ({ episodes := e :: g.episodes }, IngestResult.committed) := by
  simp [ingest, h]

theorem ingest_keyCount_le (g : GraphStore) (e : Episode)
    (k : Provider × String × String) (h : g.keyCount k ≤ 1) :
    (ingest g e).1.keyCount k ≤ 1 := by
  unfold ingest
  by_cases hk : g.hasKey (episodeKey e)
  · simpa [hk] using h
  · by_cases hek : episodeKey e = k
    · subst hek
      have hz : g.keyCount (episodeKey e) = 0 :=
        GraphStore.keyCount_eq_zero g (episodeKey e) (by simpa using hk)
      simp only [hk, if_false, GraphStore.keyCount, List.filter]
      unfold GraphStore.keyCount at hz
      simp [hz]
    · simp only [hk, if_false, GraphStore.keyCount, List.filter]
      have : decide (episodeKey e = k) = false := by simpa using hek
      rw [this]
      exact h

/-- C2: Ingestion idempotence — from a store with no fact set for the
Episode's (provider, account, source id) key, ingesting the same Episode
`n ≥ 1` times returns `committed` on the first call and `duplicateSkipped`
on each of the remaining `n − 1` calls, leaves exactly one committed
Episode for that key, and preserves the no-duplicate invariant (at most one
Episode per key) for every key. -/
theorem c2_ingest_idempotence (g : GraphStore) (e : Episode) (n : Nat)
    (hfresh : g.hasKey (episodeKey e) = false) (hn : 1 ≤ n) :
    (ingestN g e n).2 =
      IngestResult.committed ::
        List.replicate (n - 1) IngestResult.duplicateSkipped
    ∧ (ingestN g e n).1.keyCount (episodeKey e) = 1
    ∧ ∀ k, g.keyCount k ≤ 1 → (ingestN g e n).1.keyCount k ≤ 1 := by
  obtain ⟨m, rfl⟩ : ∃ m, n = m + 1 :=
    ⟨n - 1, (Nat.succ_pred_eq_of_pos hn).symm⟩
  have h1 : ingest g e = ({ episodes := e :: g.episodes }, IngestResult.committed) :=
    ingest_fresh g e hfresh
  have h2 : GraphStore.hasKey { episodes := e :: g.episodes } (episodeKey e) = true := by
    simp [GraphStore.hasKey]
  have h3 : ingestN { episodes := e :: g.episodes } e m =
      ({ episodes := e :: g.episodes }, List.replicate m IngestResult.duplicateSkipped) :=
    ingestN_of_hasKey _ e m h2
  have hrun : ingestN g e (m + 1) =
      ({ episodes := e :: g.episodes },
        IngestResult.committed :: List.replicate m IngestResult.duplicateSkipped) := by
    simp [ingestN, h1, h3]
  refine ⟨?_, ?_, ?_⟩
  · rw [hrun]
    simp
  · rw [hrun]
    have hz : g.keyCount (episodeKey e) = 0 :=
      GraphStore.keyCount_eq_zero g (episodeKey e) hfresh
    unfold GraphStore.keyCount at hz ⊢
    simp [List.filter_cons, hz]
  · intro k hk
    rw [hrun]
    have := ingest_keyCount_le g e k hk
    rw [h1] at this
    exact this

/-- Witness for `c2_ingest_idempotence` at a concrete fresh Episode and
`n = 3`. -/
theorem c2_ingest_idempotence_witness :
    GraphStore.hasKey { episodes := [] }
      (episodeKey { provider := Provider.gmail, account := "acct", sourceId := "m1",
                    occurredAt := 5, content := "hello" }) = false
    ∧ 1 ≤ 3
    ∧ (ingestN { episodes := [] }
        { provider := Provider.gmail, account := "acct", sourceId := "m1",
          occurredAt := 5, content := "hello" } 3).2 =
        IngestResult.committed ::
          List.replicate 2 IngestResult.duplicateSkipped
    ∧ (ingestN { episodes := [] }
        { provider := Provider.gmail, account := "acct", sourceId := "m1",
          occurredAt := 5, content := "hello" } 3).1.keyCount
        (episodeKey { provider := Provider.gmail, account := "acct", sourceId := "m1",
                      occurredAt := 5, content := "hello" }) = 1 :=
  ⟨by decide, by decide,
    (c2_ingest_idempotence _ _ 3 (by decide) (by decide)).1,
    (c2_ingest_idempotence _ _ 3 (by decide) (by decide)).2.1⟩

/-- Modelled from the spec: §3 SyncJob status ∈ running, succeeded,
partial, failed (`Partial` capitalised for Lean). -/
inductive JobStatus where
  | running
  | succeeded
  | Partial
  | failed
deriving DecidableEq, Repr

/-- Modelled from the spec: §3 SyncJob counts — fetched, ingested,
skipped (per-record failures, counted, non-fatal) and duplicates
(`duplicateSkipped` upserts). -/
structure Counts where
  fetched : Nat
  ingested : Nat
  skipped : Nat
  duplicates : Nat
deriving DecidableEq, Repr

def Counts.zero : Counts :=
  { fetched := 0, ingested := 0, skipped := 0, duplicates := 0 }

/-- Modelled from the spec: §3 SyncJob — account reference, status,
counts (window bounds elided; they do not affect the claims below). -/
structure SyncJob where
  jobId : Nat
  account : String
  status : JobStatus
  counts : Counts
deriving DecidableEq, Repr

/-- Modelled from the spec: §4.1 Account Store — the SyncJob table, the
per-account last-sync marker (association list), and a fresh-id counter. -/
structure AccountStore where
  jobs : List SyncJob
  lastSync : List (String × Nat)
  nextJobId : Nat
deriving DecidableEq, Repr

/-- Modelled from the spec: is a SyncJob for the account in `running`
state? -/
def AccountStore.hasRunning (s : AccountStore) (acct : String) : Bool :=
  s.jobs.any (fun j => decide (j.account = acct ∧ j.status = JobStatus.running))

/-- Modelled from the spec: the number of running SyncJobs of an account
(the single-flight invariant bounds this by one). -/
def AccountStore.runningCount (s : AccountStore) (acct : String) : Nat :=
  (s.jobs.filter (fun j => decide (j.account = acct ∧ j.status = JobStatus.running))).length

/-- Modelled from the spec: §4.1 failure mode of `markSyncStart`. -/
inductive StartError where
  | alreadySyncing
deriving DecidableEq, Repr

/-- Modelled from the spec: §4.1 `markSyncStart(account) -> SyncJob |
fails with AlreadySyncing` — rejected exactly when a SyncJob for the same
account is in `running` state; otherwise a fresh `running` job is
recorded and its id returned. -/
def markSyncStart (s : AccountStore) (acct : String) :
    Except StartError (AccountStore × Nat) :=
  if s.hasRunning acct then
    Except.error StartError.alreadySyncing
  else
    Except.ok
      ({ s with
          jobs := { jobId := s.nextJobId, account := acct,
                    status := JobStatus.running, counts := Counts.zero } :: s.jobs,
          nextJobId := s.nextJobId + 1 },
        s.nextJobId)

/-- Modelled from the spec: terminal outcomes of a SyncJob (§4.4). -/
inductive Outcome where
  | succeeded
  | Partial
  | failed
deriving DecidableEq, Repr

def Outcome.toStatus : Outcome → JobStatus
  | Outcome.succeeded => JobStatus.succeeded
  | Outcome.Partial => JobStatus.Partial
  | Outcome.failed => JobStatus.failed

/-- Modelled from the spec: look up the last-sync marker of an account. -/
def AccountStore.lastSyncOf (s : AccountStore) (acct : String) : Option Nat :=
  (s.lastSync.find? (fun p => decide (p.1 = acct))).map (fun p => p.2)

/-- Modelled from the spec: upsert the last-sync marker of an account. -/
def setLastSync (ls : List (String × Nat)) (acct : String) (t : Nat) :
    List (String × Nat) :=
  (acct, t) :: ls.filter (fun p => decide (¬ p.1 = acct))

/-- Modelled from the spec: §4.1 `markSyncEnd(jobId, outcome, counts)` —
records the terminal status and counts on the job and updates the
account's last-sync timestamp only when the outcome is `Succeeded` or
`Partial` (not on `Failed`). -/
def markSyncEnd (s : AccountStore) (jobId : Nat) (outcome : Outcome)
    (c : Counts) (now : Nat) : AccountStore :=
  let acct := (s.jobs.find? (fun j => decide (j.jobId = jobId))).map SyncJob.account
  { s with
    jobs := s.jobs.map (fun j =>
      if j.jobId = jobId then { j with status := outcome.toStatus, counts := c } else j),
    lastSync :=
      if outcome = Outcome.succeeded ∨ outcome = Outcome.Partial then
        match acct with
        | some a => setLastSync s.lastSync a now
        | none => s.lastSync
      else s.lastSync }

/-- Modelled from the spec: `n` startSync attempts for one account,
linearised by the single-flight guard (§5: the per-account SyncJob slot is
the only shared mutable state and is mutually excluded, so concurrent
calls take effect in some sequential order). -/
def startSyncN (s : AccountStore) (acct : String) :
    Nat → AccountStore × List (Except StartError Nat)
  | 0 => (s, [])
  | Nat.succ n =>
      match markSyncStart s acct with
      | Except.error e =>
          let rest := startSyncN s acct n
          (rest.1, Except.error e :: rest.2)
      | Except.ok p =>
          let rest := startSyncN p.1 acct n
          (rest.1, Except.ok p.2 :: rest.2)

theorem AccountStore.runningCount_eq_zero (s : AccountStore) (acct : String)
    (h : s.hasRunning acct = false) : s.runningCount acct = 0 := by
  unfold AccountStore.runningCount
  unfold AccountStore.hasRunning at h
  rw [List.length_eq_zero, List.filter_eq_nil_iff]
  exact List.any_eq_false.mp h

theorem startSyncN_of_running (s : AccountStore) (acct : String) (n : Nat)
    (h : s.hasRunning acct = true) :
    startSyncN s acct n =
      (s, List.replicate n (Except.error StartError.alreadySyncing)) := by
  induction n with
  | zero => simp [startSyncN]
  | succ n ih =>
      have he : markSyncStart s acct = Except.error StartError.alreadySyncing := by
        simp [markSyncStart, h]
      simp [startSyncN, he, ih, List.replicate]

theorem filter_length_map_le {α : Type} (f : α → α) (p : α → Bool) (l : List α)
    (h : ∀ x, p (f x) = true → p x = true) :
    ((l.map f).filter p).length ≤ (l.filter p).length := by
  induction l with
  | nil => simp
  | cons a t ih =>
      rw [List.map_cons, List.filter_cons, List.filter_cons]
      by_cases hpa : p (f a) = true
      · rw [if_pos hpa, if_pos (h a hpa)]
        simpa using Nat.succ_le_succ ih
      · rw [if_neg hpa]
        by_cases hqa : p a = true
        · rw [if_pos hqa]
          exact Nat.le_succ_of_le ih
        · rw [if_neg hqa]
          exact ih

theorem markSyncEnd_runningCount_le (t : AccountStore) (jobId : Nat)
    (outcome : Outcome) (c : Counts) (now : Nat) (a' : String) :
    (markSyncEnd t jobId outcome c now).runningCount a' ≤ t.runningCount a' := by
  unfold markSyncEnd AccountStore.runningCount
  refine filter_length_map_le _ _ _ ?_
  intro x hx
  by_cases hid : x.jobId = jobId
  · exfalso
    simp only [hid, if_true, decide_eq_true_eq] at hx
    cases outcome <;> simp [Outcome.toStatus] at hx
  · simpa [hid] using hx

/-- C3: Single-flight per account — `markSyncStart` fails with
`AlreadySyncing` exactly when a SyncJob for the same account is already
running; among `n ≥ 1` linearised startSync calls for one account exactly
the first yields a `Running` job and the other `n − 1` fail with
`AlreadySyncing`, leaving exactly one running job for that account; a
successful `markSyncStart` preserves the at-most-one-running-job-per-
account invariant and `markSyncEnd` never increases the number of running
jobs. -/
theorem c3_single_flight (s : AccountStore) (acct : String) (n : Nat)
    (hn : 1 ≤ n) (hno : s.hasRunning acct = false) :
    (startSyncN s acct n).2 =
        Except.ok s.nextJobId ::
          List.replicate (n - 1) (Except.error StartError.alreadySyncing)
    ∧ (startSyncN s acct n).1.runningCount acct = 1
    ∧ (∀ t a, markSyncStart t a = Except.error StartError.alreadySyncing ↔
        t.hasRunning a = true)
    ∧ (∀ t a t' i a', markSyncStart t a = Except.ok (t', i) →
        t.runningCount a' ≤ 1 → t'.runningCount a' ≤ 1)
    ∧ (∀ t jobId outcome c now a',
        (markSyncEnd t jobId outcome c now).runningCount a' ≤ t.runningCount a') := by
  obtain ⟨m, rfl⟩ : ∃ m, n = m + 1 :=
    ⟨n - 1, (Nat.succ_pred_eq_of_pos hn).symm⟩
  have hok : markSyncStart s acct =
      Except.ok
        ({ s with
            jobs := { jobId := s.nextJobId, account := acct,
                      status := JobStatus.running, counts := Counts.zero } :: s.jobs,
            nextJobId := s.nextJobId + 1 },
          s.nextJobId) := by
    simp [markSyncStart, hno]
  set s₁ : AccountStore :=
    { s with
        jobs := { jobId := s.nextJobId, account := acct,
                  status := JobStatus.running, counts := Counts.zero } :: s.jobs,
        nextJobId := s.nextJobId + 1 } with hs₁
  have hrun : s₁.hasRunning acct = true := by
    simp [AccountStore.hasRunning, hs₁]
  have hrest : startSyncN s₁ acct m =
      (s₁, List.replicate m (Except.error StartError.alreadySyncing)) :=
    startSyncN_of_running s₁ acct m hrun
  have hres : startSyncN s acct (m + 1) =
      (s₁, Except.ok s.nextJobId ::
        List.replicate m (Except.error StartError.alreadySyncing)) := by
    simp [startSyncN, hok, hrest]
  refine ⟨?_, ?_, ?_, ?_, ?_⟩
  · rw [hres]
    simp
  · rw [hres]
    have hz : s.runningCount acct = 0 := AccountStore.runningCount_eq_zero s acct hno
    unfold AccountStore.runningCount at hz ⊢
    simp only [hs₁, List.filter_cons]
    rw [if_pos (by simp), List.length_cons, hz]
  · intro t a
    unfold markSyncStart
    by_cases h : t.hasRunning a
    · simp [h]
    · simp [h]
  · intro t a t' i a' hok2 hle
    unfold markSyncStart at hok2
    by_cases h : t.hasRunning a
    · simp [h] at hok2
    · rw [if_neg h] at hok2
      injection hok2 with hp
      injection hp with hp1 hp2
      subst hp1
      have hz : t.runningCount a = 0 := AccountStore.runningCount_eq_zero t a (by simpa using h)
      unfold AccountStore.runningCount at hz hle ⊢
      by_cases ha : a = a'
      · subst ha
        simp only [List.filter_cons]
        rw [if_pos (by simp), List.length_cons, hz]
      · simp only [List.filter_cons]
        rw [if_neg]
        · exact hle
        · simp [ha]
  · intro t jobId outcome c now a'
    exact markSyncEnd_runningCount_le t jobId outcome c now a'

/-- Witness for `c3_single_flight` at a concrete empty store, account
`"a"`, and three startSync attempts. -/
theorem c3_single_flight_witness :
    1 ≤ 3
    ∧ AccountStore.hasRunning { jobs := [], lastSync := [], nextJobId := 0 } "a" = false
    ∧ (startSyncN { jobs := [], lastSync := [], nextJobId := 0 } "a" 3).2 =
        Except.ok 0 ::
          List.replicate 2 (Except.error StartError.alreadySyncing)
    ∧ (startSyncN { jobs := [], lastSync := [], nextJobId := 0 } "a" 3).1.runningCount "a" = 1 :=
  ⟨by decide, by decide,
    (c3_single_flight { jobs := [], lastSync := [], nextJobId := 0 } "a" 3
      (by decide) (by decide)).1,
    (c3_single_flight { jobs := [], lastSync := [], nextJobId := 0 } "a" 3
      (by decide) (by decide)).2.1⟩

/-- Modelled from the spec: §4.2 / §7 gateway-level error taxonomy. -/
inductive GatewayError where
  | authExpired
  | rateLimited
  | transient
deriving DecidableEq, Repr

/-- Modelled from the spec: §3 RawRecord — opaque provider-native unit
with a provider-assigned id and a modification timestamp; a malformed
record may lack either mandatory field. -/
structure RawRecord where
  recId : Option String
  timestamp : Option Nat
  payload : String
deriving DecidableEq, Repr

/-- Modelled from the spec: §4.3 Episode Builder failure mode. -/
inductive BuildError where
  | malformedRecord
deriving DecidableEq, Repr

/-- Modelled from the spec: §4.3 `normalize(providerKind, record) ->
Episode` (named `normalizeRecord` here; `normalize` is taken by Mathlib) — pure deterministic mapping; fails with `MalformedRecord` when
a mandatory field (id, timestamp) is missing. -/
def normalizeRecord (p : Provider) (acct : String) (r : RawRecord) :
    Except BuildError Episode :=
  match r.recId, r.timestamp with
  | some i, some t =>
      Except.ok
        { provider := p, account := acct, sourceId := i,
          occurredAt := t, content := r.payload }
  | _, _ => Except.error BuildError.malformedRecord

/-- Modelled from the spec: §4.4 per-record step — a `MalformedRecord`
increments the skip counter and is never fatal; a committed ingest
increments `ingested`; a `duplicateSkipped` increments `duplicates`. -/
def processRecord (p : Provider) (acct : String)
    (gc : GraphStore × Counts) (r : RawRecord) : GraphStore × Counts :=
  match normalizeRecord p acct r with
  | Except.error _ =>
      (gc.1, { gc.2 with skipped := gc.2.skipped + 1 })
  | Except.ok e =>
      let res := ingest gc.1 e
      match res.2 with
      | IngestResult.committed =>
          (res.1, { gc.2 with ingested := gc.2.ingested + 1 })
      | IngestResult.duplicateSkipped =>
          (res.1, { gc.2 with duplicates := gc.2.duplicates + 1 })

/-- Modelled from the spec: §4.4 — one fetched page: count the fetched
records, then run each through Episode Builder and Ingestion Adapter. -/
def processPage (p : Provider) (acct : String)
    (gc : GraphStore × Counts) (rs : List RawRecord) : GraphStore × Counts :=
  rs.foldl (processRecord p acct)
    (gc.1, { gc.2 with fetched := gc.2.fetched + rs.length })

/-- Modelled from the spec: §4.4 the Running phase — pages are consumed
in order (each list element is the post-retry outcome of one page fetch);
a gateway-level failure aborts the remaining job immediately with
`Failed` and the counts accumulated so far; an exhausted page list ends
the job with `Succeeded` when no per-record failure occurred and
`Partial` otherwise. -/
def runPages (p : Provider) (acct : String) :
    GraphStore → Counts → List (Except GatewayError (List RawRecord)) →
      GraphStore × Counts × JobStatus
  | g, c, [] =>
      (g, c, if c.skipped = 0 then JobStatus.succeeded else JobStatus.Partial)
  | g, c, Except.error _ :: _ => (g, c, JobStatus.failed)
  | g, c, Except.ok rs :: rest =>
      let gc := processPage p acct (g, c) rs
      runPages p acct gc.1 gc.2 rest

/-- Modelled from the spec: §4.4 a full sync run — `markSyncStart`
(single-flight guard), the page loop, then `markSyncEnd` exactly once
with the terminal outcome and final counts. -/
def runSync (s : AccountStore) (g : GraphStore) (acct : String)
    (p : Provider) (pages : List (Except GatewayError (List RawRecord)))
    (now : Nat) :
    Except StartError (AccountStore × GraphStore × Outcome × Counts) :=
  match markSyncStart s acct with
  | Except.error e => Except.error e
  | Except.ok pr =>
      let r := runPages p acct g Counts.zero pages
      let outcome : Outcome :=
        match r.2.2 with
        | JobStatus.succeeded => Outcome.succeeded
        | JobStatus.Partial => Outcome.Partial
        | _ => Outcome.failed
      Except.ok (markSyncEnd pr.1 pr.2 outcome r.2.1 now, r.1, outcome, r.2.1)

theorem runPages_abort (p : Provider) (acct : String) (ge : GatewayError)
    (pfx rest : List (Except GatewayError (List RawRecord))) :
    ∀ g c, (∀ pg ∈ pfx, pg.isOk = true) →
      runPages p acct g c (pfx ++ Except.error ge :: rest) =
        ((runPages p acct g c pfx).1,
          (runPages p acct g c pfx).2.1, JobStatus.failed) := by
  induction pfx with
  | nil =>
      intro g c _
      simp [runPages]
  | cons hd tl ih =>
      intro g c hok
      cases hd with
      | error e =>
          have := hok (Except.error e) (by simp)
          simp [Except.isOk, Except.toBool] at this
      | ok rs =>
          simp only [List.cons_append, runPages]
          exact ih _ _ (fun pg hpg => hok pg (by simp [hpg]))

theorem runPages_all_ok (p : Provider) (acct : String)
    (pages : List (Except GatewayError (List RawRecord))) :
    ∀ g c, (∀ pg ∈ pages, pg.isOk = true) →
      (runPages p acct g c pages).2.2 =
        (if (runPages p acct g c pages).2.1.skipped = 0 then JobStatus.succeeded
         else JobStatus.Partial) := by
  induction pages with
  | nil =>
      intro g c _
      simp [runPages]
  | cons hd tl ih =>
      intro g c hok
      cases hd with
      | error e =>
          have := hok (Except.error e) (by simp)
          simp [Except.isOk, Except.toBool] at this
      | ok rs =>
          simp only [runPages]
          exact ih _ _ (fun pg hpg => hok pg (by simp [hpg]))

theorem markSyncEnd_failed_lastSync (t : AccountStore) (jobId : Nat)
    (c : Counts) (now : Nat) :
    (markSyncEnd t jobId Outcome.failed c now).lastSync = t.lastSync := by
  simp [markSyncEnd]

theorem markSyncEnd_lastSyncOf_head (jobs : List SyncJob) (j : SyncJob)
    (ls : List (String × Nat)) (nid : Nat) (o : Outcome) (c : Counts) (now : Nat)
    (ho : o = Outcome.succeeded ∨ o = Outcome.Partial) :
    (markSyncEnd { jobs := j :: jobs, lastSync := ls, nextJobId := nid }
        j.jobId o c now).lastSyncOf j.account = some now := by
  unfold markSyncEnd AccountStore.lastSyncOf
  rcases ho with h | h <;> subst h <;>
    simp [List.find?, setLastSync]

/-- C4: Non-retryable abort — when the gateway fails a page with
`AuthExpired` after a prefix of successful pages, the sync run terminates
with outcome `Failed`, the returned counts (including the ingested count)
are exactly those accumulated over the pages processed before the
failure, the graph contains only what the earlier pages ingested, and
every account's last-sync timestamp is unchanged (last-sync is updated
only on `Succeeded`/`Partial`), so a failed sync is retried over the same
window next attempt. -/
theorem c4_auth_expired_abort (s : AccountStore) (g : GraphStore)
    (acct : String) (p : Provider)
    (pfx rest : List (Except GatewayError (List RawRecord))) (now : Nat)
    (s' : AccountStore) (g' : GraphStore) (o : Outcome) (c : Counts)
    (hpfx : ∀ pg ∈ pfx, pg.isOk = true)
    (hrun : runSync s g acct p
        (pfx ++ Except.error GatewayError.authExpired :: rest) now =
      Except.ok (s', g', o, c)) :
    o = Outcome.failed
    ∧ c = (runPages p acct g Counts.zero pfx).2.1
    ∧ g' = (runPages p acct g Counts.zero pfx).1
    ∧ ∀ a, s'.lastSyncOf a = s.lastSyncOf a := by
  have habort := runPages_abort p acct GatewayError.authExpired pfx rest
    g Counts.zero hpfx
  by_cases h : s.hasRunning acct
  · have hms : markSyncStart s acct = Except.error StartError.alreadySyncing := by
      simp [markSyncStart, h]
    unfold runSync at hrun
    rw [hms] at hrun
    simp at hrun
  · have hms : markSyncStart s acct =
        Except.ok
          ({ s with
              jobs := { jobId := s.nextJobId, account := acct,
                        status := JobStatus.running, counts := Counts.zero } :: s.jobs,
              nextJobId := s.nextJobId + 1 },
            s.nextJobId) := by
      simp [markSyncStart, h]
    have hval : runSync s g acct p
        (pfx ++ Except.error GatewayError.authExpired :: rest) now =
      Except.ok
        (markSyncEnd
          { s with
              jobs := { jobId := s.nextJobId, account := acct,
                        status := JobStatus.running, counts := Counts.zero } :: s.jobs,
              nextJobId := s.nextJobId + 1 }
          s.nextJobId Outcome.failed (runPages p acct g Counts.zero pfx).2.1 now,
          (runPages p acct g Counts.zero pfx).1, Outcome.failed,
          (runPages p acct g Counts.zero pfx).2.1) := by
      simp [runSync, hms, habort]
    rw [hval] at hrun
    simp only [Except.ok.injEq, Prod.mk.injEq] at hrun
    obtain ⟨h1, h2, h3, h4⟩ := hrun
    subst h1
    subst h2
    subst h3
    subst h4
    refine ⟨rfl, rfl, rfl, ?_⟩
    intro a
    unfold AccountStore.lastSyncOf
    rw [markSyncEnd_failed_lastSync]

/-- C5: Partial-failure containment — when every page fetch succeeds,
per-record `MalformedRecord` failures only increment the skip counter and
never abort the job: the run terminates `Partial` exactly when some
per-record failure occurred and `Succeeded` exactly when none did (never
`Failed`), and in both cases the account's last-sync timestamp advances
to the completion time. -/
theorem c5_partial_containment (s : AccountStore) (g : GraphStore)
    (acct : String) (p : Provider)
    (pages : List (Except GatewayError (List RawRecord))) (now : Nat)
    (s' : AccountStore) (g' : GraphStore) (o : Outcome) (c : Counts)
    (hok : ∀ pg ∈ pages, pg.isOk = true)
    (hrun : runSync s g acct p pages now = Except.ok (s', g', o, c)) :
    (o = Outcome.Partial ↔ c.skipped ≠ 0)
    ∧ (o = Outcome.succeeded ↔ c.skipped = 0)
    ∧ s'.lastSyncOf acct = some now := by
  have hst := runPages_all_ok p acct pages g Counts.zero hok
  by_cases h : s.hasRunning acct
  · have hms : markSyncStart s acct = Except.error StartError.alreadySyncing := by
      simp [markSyncStart, h]
    unfold runSync at hrun
    rw [hms] at hrun
    simp at hrun
  · have hms : markSyncStart s acct =
        Except.ok
          ({ s with
              jobs := { jobId := s.nextJobId, account := acct,
                        status := JobStatus.running, counts := Counts.zero } :: s.jobs,
              nextJobId := s.nextJobId + 1 },
            s.nextJobId) := by
      simp [markSyncStart, h]
    by_cases hsk : (runPages p acct g Counts.zero pages).2.1.skipped = 0
    · have hstat : (runPages p acct g Counts.zero pages).2.2 = JobStatus.succeeded := by
        rw [hst, if_pos hsk]
      have hval : runSync s g acct p pages now =
        Except.ok
          (markSyncEnd
            { s with
                jobs := { jobId := s.nextJobId, account := acct,
                          status := JobStatus.running, counts := Counts.zero } :: s.jobs,
                nextJobId := s.nextJobId + 1 }
            s.nextJobId Outcome.succeeded (runPages p acct g Counts.zero pages).2.1 now,
            (runPages p acct g Counts.zero pages).1, Outcome.succeeded,
            (runPages p acct g Counts.zero pages).2.1) := by
        simp [runSync, hms, hstat]
      rw [hval] at hrun
      simp only [Except.ok.injEq, Prod.mk.injEq] at hrun
      obtain ⟨h1, h2, h3, h4⟩ := hrun
      subst h1
      subst h2
      subst h3
      subst h4
      refine ⟨by simp [hsk], by simp [hsk], ?_⟩
      exact markSyncEnd_lastSyncOf_head s.jobs
        { jobId := s.nextJobId, account := acct,
          status := JobStatus.running, counts := Counts.zero }
        s.lastSync (s.nextJobId + 1) Outcome.succeeded _ now (Or.inl rfl)
    · have hstat : (runPages p acct g Counts.zero pages).2.2 = JobStatus.Partial := by
        rw [hst, if_neg hsk]
      have hval : runSync s g acct p pages now =
        Except.ok
          (markSyncEnd
            { s with
                jobs := { jobId := s.nextJobId, account := acct,
                          status := JobStatus.running, counts := Counts.zero } :: s.jobs,
                nextJobId := s.nextJobId + 1 }
            s.nextJobId Outcome.Partial (runPages p acct g Counts.zero pages).2.1 now,
            (runPages p acct g Counts.zero pages).1, Outcome.Partial,
            (runPages p acct g Counts.zero pages).2.1) := by
        simp [runSync, hms, hstat]
      rw [hval] at hrun
      simp only [Except.ok.injEq, Prod.mk.injEq] at hrun
      obtain ⟨h1, h2, h3, h4⟩ := hrun
      subst h1
      subst h2
      subst h3
      subst h4
      refine ⟨by simp [hsk], by simp [hsk], ?_⟩
      exact markSyncEnd_lastSyncOf_head s.jobs
        { jobId := s.nextJobId, account := acct,
          status := JobStatus.running, counts := Counts.zero }
        s.lastSync (s.nextJobId + 1) Outcome.Partial _ now (Or.inr rfl)

/-- Concrete fixture for witnesses: a store with no jobs and a previous
last-sync marker of 7 for account `"a"`. -/
def wStore : AccountStore := { jobs := [], lastSync := [("a", 7)], nextJobId := 0 }

/-- Concrete fixture for witnesses: an empty graph store. -/
def wGraph : GraphStore := { episodes := [] }

/-- Concrete fixture for witnesses: a well-formed raw record. -/
def wRec (i : String) : RawRecord :=
  { recId := some i, timestamp := some 1, payload := "x" }

/-- Concrete fixture for witnesses: the counts accumulated by page 1 of
the aborted run. -/
def wFailCounts : Counts :=
  { fetched := 1, ingested := 1, skipped := 0, duplicates := 0 }

/-- Concrete fixture for witnesses: the account store left by the aborted
run. -/
def wFailStore : AccountStore :=
  { jobs := [{ jobId := 0, account := "a", status := JobStatus.failed,
               counts := wFailCounts }],
    lastSync := [("a", 7)], nextJobId := 1 }

/-- Concrete fixture for witnesses: the graph left by the aborted run. -/
def wFailGraph : GraphStore :=
  { episodes := [{ provider := Provider.gmail, account := "a", sourceId := "m1",
                   occurredAt := 1, content := "x" }] }

/-- Witness for `c4_auth_expired_abort`: five pages with `AuthExpired` on
page 2 — `Failed`, ingested count from page 1 only, last-sync marker
unchanged. -/
theorem c4_auth_expired_abort_witness :
    (∀ pg ∈ ([Except.ok [wRec "m1"]] :
        List (Except GatewayError (List RawRecord))), pg.isOk = true)
    ∧ runSync wStore wGraph "a" Provider.gmail
        ([Except.ok [wRec "m1"]] ++ Except.error GatewayError.authExpired ::
          [Except.ok [wRec "m2"], Except.ok [wRec "m3"], Except.ok [wRec "m4"]]) 99 =
        Except.ok (wFailStore, wFailGraph, Outcome.failed, wFailCounts)
    ∧ wFailCounts =
        (runPages Provider.gmail "a" wGraph Counts.zero [Except.ok [wRec "m1"]]).2.1
    ∧ wFailStore.lastSyncOf "a" = wStore.lastSyncOf "a" :=
  ⟨by decide, by rfl,
    (c4_auth_expired_abort wStore wGraph "a" Provider.gmail
      [Except.ok [wRec "m1"]]
      [Except.ok [wRec "m2"], Except.ok [wRec "m3"], Except.ok [wRec "m4"]] 99
      wFailStore wFailGraph Outcome.failed wFailCounts
      (by decide) (by rfl)).2.1,
    (c4_auth_expired_abort wStore wGraph "a" Provider.gmail
      [Except.ok [wRec "m1"]]
      [Except.ok [wRec "m2"], Except.ok [wRec "m3"], Except.ok [wRec "m4"]] 99
      wFailStore wFailGraph Outcome.failed wFailCounts
      (by decide) (by rfl)).2.2.2 "a"⟩

/-- Concrete fixture for witnesses: a batch of ten records of which one
is malformed (missing id). -/
def wBatch : List RawRecord :=
  [wRec "m1", wRec "m2", wRec "m3", wRec "m4", wRec "m5", wRec "m6",
   wRec "m7", wRec "m8", wRec "m9",
   { recId := none, timestamp := some 1, payload := "bad" }]

/-- Concrete fixture for witnesses: the counts of the partial run. -/
def wPartialCounts : Counts :=
  { fetched := 10, ingested := 9, skipped := 1, duplicates := 0 }

/-- Concrete fixture for witnesses: the account store left by the partial
run (last-sync advanced to 99). -/
def wPartialStore : AccountStore :=
  { jobs := [{ jobId := 0, account := "a", status := JobStatus.Partial,
               counts := wPartialCounts }],
    lastSync := [("a", 99)], nextJobId := 1 }

/-- Concrete fixture for witnesses: the graph left by the partial run. -/
def wPartialGraph : GraphStore :=
  { episodes :=
      [{ provider := Provider.gmail, account := "a", sourceId := "m9",
         occurredAt := 1, content := "x" },
       { provider := Provider.gmail, account := "a", sourceId := "m8",
         occurredAt := 1, content := "x" },
       { provider := Provider.gmail, account := "a", sourceId := "m7",
         occurredAt := 1, content := "x" },
       { provider := Provider.gmail, account := "a", sourceId := "m6",
         occurredAt := 1, content := "x" },
       { provider := Provider.gmail, account := "a", sourceId := "m5",
         occurredAt := 1, content := "x" },
       { provider := Provider.gmail, account := "a", sourceId := "m4",
         occurredAt := 1, content := "x" },
       { provider := Provider.gmail, account := "a", sourceId := "m3",
         occurredAt := 1, content := "x" },
       { provider := Provider.gmail, account := "a", sourceId := "m2",
         occurredAt := 1, content := "x" },
       { provider := Provider.gmail, account := "a", sourceId := "m1",
         occurredAt := 1, content := "x" }] }

/-- Witness for `c5_partial_containment`: one malformed record in a batch
of ten — `Partial`, ingested = 9, skipped = 1, last-sync advanced. -/
theorem c5_partial_containment_witness :
    (∀ pg ∈ ([Except.ok wBatch] :
        List (Except GatewayError (List RawRecord))), pg.isOk = true)
    ∧ runSync wStore wGraph "a" Provider.gmail [Except.ok wBatch] 99 =
        Except.ok (wPartialStore, wPartialGraph, Outcome.Partial, wPartialCounts)
    ∧ (Outcome.Partial = Outcome.Partial ↔ wPartialCounts.skipped ≠ 0)
    ∧ wPartialStore.lastSyncOf "a" = some 99
    ∧ wPartialCounts.ingested = 9 ∧ wPartialCounts.skipped = 1 :=
  ⟨by decide, by rfl,
    (c5_partial_containment wStore wGraph "a" Provider.gmail
      [Except.ok wBatch] 99 wPartialStore wPartialGraph Outcome.Partial
      wPartialCounts (by decide) (by rfl)).1,
    (c5_partial_containment wStore wGraph "a" Provider.gmail
      [Except.ok wBatch] 99 wPartialStore wPartialGraph Outcome.Partial
      wPartialCounts (by decide) (by rfl)).2.2,
    by decide, by decide⟩

/-- Modelled from the spec: §3 KnowledgeFact as seen by the Retrieval &
Answer Engine — a retrieved fact with its context tag (§4.6 step 3) and
the source episode id it is provenance-linked to. -/
structure RetrievedFact where
  tag : Nat
  episodeId : String
  content : String
deriving DecidableEq, Repr

/-- §3 ChatResponse: answer text and the ordered list of cited source
identifiers (this is also the `{answer, sources}` shape the UI reads). -/
structure ChatResponse where
  answer : String
  sources : List String
deriving DecidableEq, Repr

/-- Modelled from the spec: §5/§7 chat-path terminal error. -/
inductive ChatError where
  | answerTimeout
deriving DecidableEq, Repr

/-- Modelled from the spec: the outcome of the single language-model
call — a completion (answer text plus the fact tags the model says it
used), or expiry of the call's explicit timeout (§5). -/
inductive ModelOutcome where
  | completed (text : String) (citedTags : List Nat)
  | timedOut
deriving DecidableEq, Repr

/-- Modelled from the spec: §4.6 step 3 — the bounded context block, each
retrieved fact tagged with its provenance tag. -/
def contextBlock (facts : List RetrievedFact) : String :=
  String.intercalate "\n"
    (facts.map (fun f => "[" ++ toString f.tag ++ "] " ++ f.content))

/-- Modelled from the spec: §4.6 step 2 — the fixed response stating that
no relevant information was found, carrying no citations. -/
def noFactsResponse : ChatResponse :=
  { answer := "No relevant information was found in your connected data.",
    sources := [] }

/-- Modelled from the spec: §4.6 `answer(queryText, context) ->
ChatResponse` over the facts retrieved in step 1 — (2) zero facts give
the fixed no-information response without consulting the model; (3)–(4)
otherwise one language-model call is made with the question plus the
grounded context (its explicit timeout makes `AnswerTimeout` a terminal
error, not retried); (5) the model's cited tags are mapped back to source
episode ids — a tag with no corresponding retrieved fact cannot be
resolved and is dropped. -/
def answer (call : String → ModelOutcome) (queryText : String)
    (facts : List RetrievedFact) : Except ChatError ChatResponse :=
  if facts.isEmpty then
    Except.ok noFactsResponse
  else
    match call (queryText ++ "\n" ++ contextBlock facts) with
    | ModelOutcome.timedOut => Except.error ChatError.answerTimeout
    | ModelOutcome.completed text tags =>
        Except.ok
          { answer := text,
            sources := facts.filterMap (fun f =>
              if f.tag ∈ tags then some f.episodeId else none) }

/-- A chat message as rendered by `app/page.tsx` (the `Message` type):
role, content, and the optional sources on assistant messages. -/
structure Message where
  role : String
  content : String
  sources : Option (List String)
deriving DecidableEq, Repr

/-- The state of `ChatPage` in `app/page.tsx`: the `messages` list, the
`input` field, and the mutation's `isPending` flag. -/
structure ChatUiState where
  messages : List Message
  input : String
  isPending : Bool
deriving DecidableEq, Repr

/-- Settlement of `chatMutation` (`app/page.tsx` lines 13–27): on success
the user message and the assistant message — `content` from
`response.data.answer`, `sources` passed through unchanged from
`response.data.sources` — are appended and the input cleared; there is no
`onError` handler, so a failed mutation changes neither the message list
nor the input; either way the mutation stops pending. -/
def applyChatResult (s : ChatUiState) (r : Except ChatError ChatResponse) :
    ChatUiState :=
  match r with
  | Except.ok resp =>
      { messages := s.messages ++
          [{ role := "user", content := s.input, sources := none },
           { role := "assistant", content := resp.answer,
             sources := some resp.sources }],
        input := "",
        isPending := false }
  | Except.error _ => { s with isPending := false }

/-- JavaScript `String.prototype.trim` as used by `page.tsx` (leading
and trailing whitespace removed), modelled over the character list. -/
def jsTrim (s : String) : String :=
  String.mk (((s.data.dropWhile Char.isWhitespace).reverse.dropWhile
    Char.isWhitespace).reverse)

/-- `handleSubmit` (`app/page.tsx` lines 29–33): returns without issuing
a request when the trimmed input is empty or a mutation is already
pending; otherwise calls `chatMutation.mutate(input)` and the mutation
becomes pending. -/
def handleSubmit (s : ChatUiState) : ChatUiState × Option String :=
  if jsTrim s.input = "" ∨ s.isPending then (s, none)
  else ({ s with isPending := true }, some s.input)

/-- `app/page.tsx` line 93: the input field is disabled while a chat
request is pending. -/
def inputDisabled (s : ChatUiState) : Bool :=
  s.isPending

/-- `app/page.tsx` line 97: the send button is disabled while a chat
request is pending or the trimmed input is empty. -/
def sendDisabled (s : ChatUiState) : Bool :=
  s.isPending || decide (jsTrim s.input = "")

/-- `api-client.ts` lines 6–9: the axios client carries an explicit
30000 ms timeout on every request, including the chat call. -/
def apiClientTimeoutMs : Nat := 30000

/-- C1: Citation integrity — every source identifier in a `ChatResponse`
returned by `answer` corresponds to a fact actually retrieved and passed
into the answer-generation step (a subset of the step-3 facts, no
fabricated citation, whatever the model outputs), and the chat UI appends
the returned sources to the message list unchanged. -/
theorem c1_citation_integrity (call : String → ModelOutcome) (q : String)
    (facts : List RetrievedFact) (resp : ChatResponse)
    (h : answer call q facts = Except.ok resp) :
    (∀ src ∈ resp.sources, ∃ f ∈ facts, f.episodeId = src)
    ∧ ∀ s : ChatUiState,
        (applyChatResult s (Except.ok resp)).messages =
          s.messages ++
            [{ role := "user", content := s.input, sources := none },
             { role := "assistant", content := resp.answer,
               sources := some resp.sources }] := by
  constructor
  · intro src hsrc
    unfold answer at h
    by_cases hemp : facts.isEmpty
    · rw [if_pos hemp] at h
      injection h with h
      subst h
      simp [noFactsResponse] at hsrc
    · rw [if_neg hemp] at h
      cases hcall : call (q ++ "\n" ++ contextBlock facts) with
      | timedOut =>
          rw [hcall] at h
          simp at h
      | completed text tags =>
          rw [hcall] at h
          simp only [Except.ok.injEq] at h
          subst h
          simp only [List.mem_filterMap] at hsrc
          obtain ⟨f, hf, hval⟩ := hsrc
          by_cases ht : f.tag ∈ tags
          · rw [if_pos ht] at hval
            injection hval with hval
            exact ⟨f, hf, hval⟩
          · rw [if_neg ht] at hval
            cases hval
  · intro s
    rfl

/-- Concrete fixture for witnesses: two retrieved facts. -/
def wFacts : List RetrievedFact :=
  [{ tag := 0, episodeId := "ep0", content := "c0" },
   { tag := 1, episodeId := "ep1", content := "c1" }]

/-- Concrete fixture for witnesses: the response produced over `wFacts`
by a model citing tag 1 and the out-of-set tag 99. -/
def wResp : ChatResponse :=
  { answer := "ans", sources := ["ep1"] }

/-- Witness for `c1_citation_integrity`: a model citing an in-set tag and
an out-of-set tag yields only the in-set citation, and the UI appends it
unchanged. -/
theorem c1_citation_integrity_witness :
    answer (fun _ => ModelOutcome.completed "ans" [1, 99]) "q" wFacts =
      Except.ok wResp
    ∧ (applyChatResult { messages := [], input := "q", isPending := true }
        (Except.ok wResp)).messages =
        ([] : List Message) ++
          [{ role := "user", content := "q", sources := none },
           { role := "assistant", content := wResp.answer,
             sources := some wResp.sources }]
    ∧ wResp.sources = ["ep1"] :=
  ⟨rfl,
    (c1_citation_integrity (fun _ => ModelOutcome.completed "ans" [1, 99])
      "q" wFacts wResp rfl).2
      { messages := [], input := "q", isPending := true },
    by decide⟩

/-- C6: No-facts behavior — with zero retrieved facts `answer` returns
the fixed "no relevant information" response as an ordinary successful
result (a user-visible message, not an error), identically for every
model and query (the model is never consulted), and with an empty
citation list rather than an invented answer. -/
theorem c6_no_facts (call call' : String → ModelOutcome) (q q' : String) :
    answer call q [] = Except.ok noFactsResponse
    ∧ answer call q [] = answer call' q' []
    ∧ noFactsResponse.answer =
        "No relevant information was found in your connected data."
    ∧ noFactsResponse.sources = [] :=
  ⟨rfl, rfl, rfl, rfl⟩

/-- C7: Chat-path error terminality and atomicity — the UI chat request
carries an explicit 30-second timeout; when the single language-model
call (the embedding performs at most one) times out, `answer` returns the
terminal `AnswerTimeout` error to the caller with no partial answer; a
failed chat mutation leaves both the displayed message list and the typed
input unchanged. -/
theorem c7_chat_error_terminal (call : String → ModelOutcome) (q : String)
    (f : RetrievedFact) (fs : List RetrievedFact)
    (h : call (q ++ "\n" ++ contextBlock (f :: fs)) = ModelOutcome.timedOut) :
    answer call q (f :: fs) = Except.error ChatError.answerTimeout
    ∧ (∀ s : ChatUiState, ∀ e : ChatError,
        (applyChatResult s (Except.error e)).messages = s.messages
        ∧ (applyChatResult s (Except.error e)).input = s.input)
    ∧ apiClientTimeoutMs = 30000 := by
  refine ⟨?_, ?_, rfl⟩
  · unfold answer
    rw [if_neg (by simp), h]
  · intro s e
    exact ⟨rfl, rfl⟩

/-- Concrete fixture for witnesses: a single retrieved fact. -/
def wFact : RetrievedFact :=
  { tag := 0, episodeId := "ep0", content := "c0" }

/-- Witness for `c7_chat_error_terminal`: a model that always times out
yields the terminal `AnswerTimeout` on a one-fact retrieval. -/
theorem c7_chat_error_terminal_witness :
    (fun _ : String => ModelOutcome.timedOut)
        ("q" ++ "\n" ++ contextBlock [wFact]) = ModelOutcome.timedOut
    ∧ answer (fun _ => ModelOutcome.timedOut) "q" [wFact] =
        Except.error ChatError.answerTimeout
    ∧ apiClientTimeoutMs = 30000 :=
  ⟨rfl,
    (c7_chat_error_terminal (fun _ => ModelOutcome.timedOut) "q" wFact [] rfl).1,
    (c7_chat_error_terminal (fun _ => ModelOutcome.timedOut) "q" wFact [] rfl).2.2⟩

/-- HTTP method of an `api-client.ts` operation. -/
inductive Method where
  | get
  | post
deriving DecidableEq, Repr

/-- One operation of the `api` object in `api-client.ts`: HTTP method,
path, and the JSON body field it sends (if any). -/
structure Endpoint where
  method : Method
  path : String
  bodyField : Option String
deriving DecidableEq, Repr

/-- `api-client.ts` line 13: `auth.getConnectToken()`. -/
def api_auth_getConnectToken : Endpoint :=
  { method := Method.post, path := "/api/v1/auth/connect-token", bodyField := none }

/-- `api-client.ts` lines 16–17: `integrations.saveGmailAccount(account_id)`. -/
def api_integrations_saveGmailAccount : Endpoint :=
  { method := Method.post, path := "/api/v1/integrations/gmail/save",
    bodyField := some "account_id" }

/-- `api-client.ts` lines 18–19: `integrations.saveHubSpotAccount(account_id)`. -/
def api_integrations_saveHubSpotAccount : Endpoint :=
  { method := Method.post, path := "/api/v1/integrations/hubspot/save",
    bodyField := some "account_id" }

/-- `api-client.ts` line 22: `sync.syncGmail()`. -/
def api_sync_syncGmail : Endpoint :=
  { method := Method.post, path := "/api/v1/sync/gmail", bodyField := none }

/-- `api-client.ts` line 23: `sync.syncHubSpot()`. -/
def api_sync_syncHubSpot : Endpoint :=
  { method := Method.post, path := "/api/v1/sync/hubspot", bodyField := none }

/-- `api-client.ts` line 24: `sync.getStatus()`. -/
def api_sync_getStatus : Endpoint :=
  { method := Method.get, path := "/api/v1/sync/status", bodyField := none }

/-- `api-client.ts` lines 27–28: `agent.chat(message)`. -/
def api_agent_chat : Endpoint :=
  { method := Method.post, path := "/api/v1/agent/chat", bodyField := some "message" }

/-- The complete `api` object of `api-client.ts` lines 11–30 — these
seven entries are all the operations the UI layer's API client can
invoke. -/
def apiEndpoints : List Endpoint :=
  [api_auth_getConnectToken,
   api_integrations_saveGmailAccount, api_integrations_saveHubSpotAccount,
   api_sync_syncGmail, api_sync_syncHubSpot, api_sync_getStatus,
   api_agent_chat]

/-- The five consumer-facing operations of spec §6 (`saveAccount` and
`startSync` are parameterised by provider, realised per-provider in the
client). -/
inductive ConsumerOp where
  | getConnectToken
  | saveAccount (provider : Provider)
  | startSync (provider : Provider)
  | getSyncStatus
  | chat
deriving DecidableEq, Repr

/-- Refinement map, following the spec's words (§6): which
consumer-facing operation an endpoint path realises. -/
def consumerOpOf (e : Endpoint) : Option ConsumerOp :=
  if e.path = "/api/v1/auth/connect-token" then some ConsumerOp.getConnectToken
  else if e.path = "/api/v1/integrations/gmail/save" then
    some (ConsumerOp.saveAccount Provider.gmail)
  else if e.path = "/api/v1/integrations/hubspot/save" then
    some (ConsumerOp.saveAccount Provider.hubspot)
  else if e.path = "/api/v1/sync/gmail" then
    some (ConsumerOp.startSync Provider.gmail)
  else if e.path = "/api/v1/sync/hubspot" then
    some (ConsumerOp.startSync Provider.hubspot)
  else if e.path = "/api/v1/sync/status" then some ConsumerOp.getSyncStatus
  else if e.path = "/api/v1/agent/chat" then some ConsumerOp.chat
  else none

/-- C8: Consumer-facing interface shape — the UI layer's API client
invokes exactly the five consumer-facing operations (`saveAccount` and
`startSync` realised once per provider, seven endpoints in all) and no
endpoint outside that contract; the chat operation posts a `message`
body, and the chat page reads the response's `{answer, sources}` shape as
`response.data.answer` / `response.data.sources` when appending the
assistant message. -/
theorem c8_interface_shape :
    apiEndpoints.filterMap consumerOpOf =
      [ConsumerOp.getConnectToken,
       ConsumerOp.saveAccount Provider.gmail,
       ConsumerOp.saveAccount Provider.hubspot,
       ConsumerOp.startSync Provider.gmail,
       ConsumerOp.startSync Provider.hubspot,
       ConsumerOp.getSyncStatus, ConsumerOp.chat]
    ∧ (∀ e ∈ apiEndpoints, (consumerOpOf e).isSome = true)
    ∧ apiEndpoints.length = 7
    ∧ api_agent_chat.bodyField = some "message"
    ∧ ∀ resp : ChatResponse, ∀ s : ChatUiState,
        (applyChatResult s (Except.ok resp)).messages =
          s.messages ++
            [{ role := "user", content := s.input, sources := none },
             { role := "assistant", content := resp.answer,
               sources := some resp.sources }] := by
  refine ⟨by decide, by decide, by decide, by decide, ?_⟩
  intro resp s
  rfl

/-- C9: Chat UI single-flight and non-empty guard — `handleSubmit` issues
a request only from a non-pending state with non-empty trimmed input; the
issued message is the raw input, non-empty after trimming; issuing makes
the mutation pending, and from any pending state the input field and the
send button are disabled and a further submission issues nothing — hence
at most one chat request from this page is in flight at a time. -/
theorem c9_submit_guard (s : ChatUiState) (m : String)
    (h : (handleSubmit s).2 = some m) :
    s.isPending = false
    ∧ jsTrim s.input ≠ ""
    ∧ m = s.input
    ∧ jsTrim m ≠ ""
    ∧ (handleSubmit s).1.isPending = true
    ∧ (handleSubmit (handleSubmit s).1).2 = none
    ∧ ∀ t : ChatUiState, t.isPending = true →
        inputDisabled t = true ∧ sendDisabled t = true ∧
          (handleSubmit t).2 = none := by
  have hcond : ¬(jsTrim s.input = "" ∨ s.isPending = true) := by
    intro hc
    unfold handleSubmit at h
    rw [if_pos hc] at h
    simp at h
  push_neg at hcond
  obtain ⟨hne, hp⟩ := hcond
  have hp' : s.isPending = false := by
    cases hb : s.isPending
    · rfl
    · exact absurd hb hp
  have hstep : handleSubmit s = ({ s with isPending := true }, some s.input) := by
    unfold handleSubmit
    rw [if_neg (by push_neg; exact ⟨hne, hp⟩)]
  have hm : m = s.input := by
    rw [hstep] at h
    injection h with h
    exact h.symm
  have hpend : handleSubmit { s with isPending := true } =
      ({ s with isPending := true }, none) := by
    unfold handleSubmit
    rw [if_pos (Or.inr rfl)]
  refine ⟨hp', hne, hm, by rw [hm]; exact hne, by rw [hstep], ?_, ?_⟩
  · rw [hstep]
    show (handleSubmit { s with isPending := true }).2 = none
    rw [hpend]
  · intro t ht
    refine ⟨ht, ?_, ?_⟩
    · simp [sendDisabled, ht]
    · unfold handleSubmit
      rw [if_pos (Or.inr ht)]

/-- Witness for `c9_submit_guard` at a concrete non-pending state with
input `" hi "`. -/
theorem c9_submit_guard_witness :
    (handleSubmit { messages := [], input := " hi ", isPending := false }).2 =
      some " hi "
    ∧ ({ messages := [], input := " hi ", isPending := false } :
        ChatUiState).isPending = false
    ∧ jsTrim " hi " ≠ ""
    ∧ (handleSubmit
        { messages := [], input := " hi ", isPending := false }).1.isPending = true :=
  ⟨by decide,
    (c9_submit_guard { messages := [], input := " hi ", isPending := false }
      " hi " (by decide)).1,
    (c9_submit_guard { messages := [], input := " hi ", isPending := false }
      " hi " (by decide)).2.2.2.1,
    (c9_submit_guard { messages := [], input := " hi ", isPending := false }
      " hi " (by decide)).2.2.2.2.1⟩

/-- One observable effect of a settings-page handler: an API call, OAuth
popup control, a poll timer, a user-facing report (alert content carried
at the semantic level: synced count, error detail), or a per-provider
syncing-flag change. -/
inductive SettingsEff where
  | getConnectToken
  | openOAuthPopup (app : String) (windowName : String) (features : String)
  | startPollInterval (ms : Nat)
  | clearPollInterval
  | refetchSyncStatus
  | delay (ms : Nat)
  | reportConnected (p : Provider)
  | reportConnectFailed (p : Provider)
  | setSyncing (p : Provider) (b : Bool)
  | postSync (p : Provider)
  | reportSynced (p : Provider) (count : Nat)
  | reportSyncFailed (p : Provider) (detail : String)
deriving DecidableEq, Repr

/-- The environment a settings-page handler runs against: whether the
connect-token fetch succeeds, whether the provider reads as connected
once the popup closes, and each provider's sync outcome (synced count or
error detail). -/
structure SettingsEnv where
  tokenOk : Bool
  connected : Provider → Bool
  syncResult : Provider → Except String Nat

/-- `handleSyncGmail` of `src/frontend/src/app/settings/page.tsx` lines
100–112: set the gmail syncing flag, post the sync, report the synced
count and refetch on success or report the error detail on failure, and
always clear the flag in the `finally` block. -/
def handleSyncGmailA (env : SettingsEnv) : List SettingsEff :=
  [SettingsEff.setSyncing Provider.gmail true,
   SettingsEff.postSync Provider.gmail] ++
  (match env.syncResult Provider.gmail with
   | Except.ok n =>
       [SettingsEff.reportSynced Provider.gmail n,
        SettingsEff.refetchSyncStatus]
   | Except.error d => [SettingsEff.reportSyncFailed Provider.gmail d]) ++
  [SettingsEff.setSyncing Provider.gmail false]

/-- `handleSyncHubSpot` of `src/frontend/src/app/settings/page.tsx` lines
114–126. -/
def handleSyncHubSpotA (env : SettingsEnv) : List SettingsEff :=
  [SettingsEff.setSyncing Provider.hubspot true,
   SettingsEff.postSync Provider.hubspot] ++
  (match env.syncResult Provider.hubspot with
   | Except.ok n =>
       [SettingsEff.reportSynced Provider.hubspot n,
        SettingsEff.refetchSyncStatus]
   | Except.error d => [SettingsEff.reportSyncFailed Provider.hubspot d]) ++
  [SettingsEff.setSyncing Provider.hubspot false]

/-- `handleConnectGmail` of `src/frontend/src/app/settings/page.tsx`
lines 20–58: fetch the connect token (on failure report and stop), open
the OAuth popup with `app=gmail`, poll every 500 ms for the popup to
close, then clear the interval, refetch status, wait 1000 ms, and if the
provider reads connected report success and trigger the sync handler. -/
def handleConnectGmailA (env : SettingsEnv) : List SettingsEff :=
  if env.tokenOk then
    [SettingsEff.getConnectToken,
     SettingsEff.openOAuthPopup "gmail" "pipedream-oauth" "width=600,height=700",
     SettingsEff.startPollInterval 500,
     SettingsEff.clearPollInterval,
     SettingsEff.refetchSyncStatus,
     SettingsEff.delay 1000] ++
    (if env.connected Provider.gmail then
       SettingsEff.reportConnected Provider.gmail :: handleSyncGmailA env
     else [])
  else
    [SettingsEff.getConnectToken,
     SettingsEff.reportConnectFailed Provider.gmail]

/-- `handleConnectHubSpot` of `src/frontend/src/app/settings/page.tsx`
lines 60–98. -/
def handleConnectHubSpotA (env : SettingsEnv) : List SettingsEff :=
  if env.tokenOk then
    [SettingsEff.getConnectToken,
     SettingsEff.openOAuthPopup "hubspot" "pipedream-oauth" "width=600,height=700",
     SettingsEff.startPollInterval 500,
     SettingsEff.clearPollInterval,
     SettingsEff.refetchSyncStatus,
     SettingsEff.delay 1000] ++
    (if env.connected Provider.hubspot then
       SettingsEff.reportConnected Provider.hubspot :: handleSyncHubSpotA env
     else [])
  else
    [SettingsEff.getConnectToken,
     SettingsEff.reportConnectFailed Provider.hubspot]

/-- `handleSyncGmail` of `src/frontend/app/settings/page.tsx` lines
79–91 (the second variant; same logic, same alert strings). -/
def handleSyncGmailB (env : SettingsEnv) : List SettingsEff :=
  [SettingsEff.setSyncing Provider.gmail true,
   SettingsEff.postSync Provider.gmail] ++
  (match env.syncResult Provider.gmail with
   | Except.ok n =>
       [SettingsEff.reportSynced Provider.gmail n,
        SettingsEff.refetchSyncStatus]
   | Except.error d => [SettingsEff.reportSyncFailed Provider.gmail d]) ++
  [SettingsEff.setSyncing Provider.gmail false]

/-- `handleSyncHubSpot` of `src/frontend/app/settings/page.tsx` lines
93–105. -/
def handleSyncHubSpotB (env : SettingsEnv) : List SettingsEff :=
  [SettingsEff.setSyncing Provider.hubspot true,
   SettingsEff.postSync Provider.hubspot] ++
  (match env.syncResult Provider.hubspot with
   | Except.ok n =>
       [SettingsEff.reportSynced Provider.hubspot n,
        SettingsEff.refetchSyncStatus]
   | Except.error d => [SettingsEff.reportSyncFailed Provider.hubspot d]) ++
  [SettingsEff.setSyncing Provider.hubspot false]

/-- `handleConnectGmail` of `src/frontend/app/settings/page.tsx` lines
19–47 (the second variant; its connect-failure alert omits the trailing
"Check console for details." sentence, a purely presentational
difference carried outside the effect vocabulary). -/
def handleConnectGmailB (env : SettingsEnv) : List SettingsEff :=
  if env.tokenOk then
    [SettingsEff.getConnectToken,
     SettingsEff.openOAuthPopup "gmail" "pipedream-oauth" "width=600,height=700",
     SettingsEff.startPollInterval 500,
     SettingsEff.clearPollInterval,
     SettingsEff.refetchSyncStatus,
     SettingsEff.delay 1000] ++
    (if env.connected Provider.gmail then
       SettingsEff.reportConnected Provider.gmail :: handleSyncGmailB env
     else [])
  else
    [SettingsEff.getConnectToken,
     SettingsEff.reportConnectFailed Provider.gmail]

/-- `handleConnectHubSpot` of `src/frontend/app/settings/page.tsx` lines
49–77. -/
def handleConnectHubSpotB (env : SettingsEnv) : List SettingsEff :=
  if env.tokenOk then
    [SettingsEff.getConnectToken,
     SettingsEff.openOAuthPopup "hubspot" "pipedream-oauth" "width=600,height=700",
     SettingsEff.startPollInterval 500,
     SettingsEff.clearPollInterval,
     SettingsEff.refetchSyncStatus,
     SettingsEff.delay 1000] ++
    (if env.connected Provider.hubspot then
       SettingsEff.reportConnected Provider.hubspot :: handleSyncHubSpotB env
     else [])
  else
    [SettingsEff.getConnectToken,
     SettingsEff.reportConnectFailed Provider.hubspot]

/-- C10: Equivalence of the two settings-page variants — for every
environment and every user action (connect gmail, connect hubspot, sync
gmail, sync hubspot) the two `SettingsPage` implementations perform the
same sequence of observable API effects: connect obtains a token, opens
the OAuth popup with the provider app parameter, polls every 500 ms for
the popup to close, refetches status and conditionally triggers the sync;
sync posts the provider sync request, reports the synced count or the
error detail, refetches on success, and always clears the per-provider
syncing flag — they differ only in rendered presentation. -/
theorem c10_settings_variants_equivalent (env : SettingsEnv) :
    handleConnectGmailA env = handleConnectGmailB env
    ∧ handleConnectHubSpotA env = handleConnectHubSpotB env
    ∧ handleSyncGmailA env = handleSyncGmailB env
    ∧ handleSyncHubSpotA env = handleSyncHubSpotB env :=
  ⟨rfl, rfl, rfl, rfl⟩
